import Mathlib

/-!
Verification development for the CodeLens backend core: the multi-language
static analyzer (`backend/analyzers/static_analyzer.py`) and the sandboxed
code executor (`backend/executors/code_executor.py`).

The Python code is shallowly embedded as follows.

* Python `str` values are Lean `String`s; the Python string operations used
  by the source (`len`, slicing `[:n]`, `strip`, `startswith`, `endswith`,
  `split('\n')`, `count`, the substring test `in`) are given executable
  definitions over the underlying `List Char`, which matches Python's
  code-point semantics.
* Python dicts whose keys are fixed string literals in the source are
  embedded either as Lean structures (when every construction site writes
  the same keys: `Issue`, `AnalysisBundle`, `ExecutionResult`) or as
  association lists `List (String × Val)` for the heterogeneous metric /
  quality / complexity dictionaries.
* The Python `ast` module is embedded as the inductive `PyNode`; `ast.parse`
  itself is an oracle in the analyzer environment (`AnalyzerEnv.parse`),
  returning either a syntax error (line number and message) or a tree.
  `ast.walk` is `walkN` (it enumerates every node of the tree; the source's
  breadth-first order is irrelevant to every property proved here, which are
  counts, memberships and single-element lists).
* Calls into the `re` regex module are oracles: each regex-derived count or
  boolean is a field of a `...Facts` environment record.  Plain string
  operations are never oracled.
* Subprocess execution, wall-clock time and the optional pylint binary are
  environment inputs (`PyRunEnv`, `CppRunEnv`, ..., `AnalyzerEnv.pylint`).
  Filesystem effects of the executor (temp file/dir creation and deletion,
  process kill) are recorded as an explicit action trace (`Act`), and a
  small filesystem semantics (`runActs`) interprets that trace.
* A `raised...` constructor in an outcome type stands for a Python exception
  thrown at the corresponding program point; the embedding of a
  `try/except` block maps it to the handler's result, mirroring the source.
-/

namespace Py

/-- Python's whitespace set for `str.strip` (space, tab, CR, LF, vertical
tab, form feed). -/
def pyIsSpace (c : Char) : Bool :=
  c = ' ' || c = '\t' || c = '\n' || c = '\r' || c = '\x0b' || c = '\x0c'

/-- Python `len(s)` (number of code points). -/
def strLen (s : String) : Nat := s.data.length

/-- Python slicing `s[:n]`. -/
def take (s : String) (n : Nat) : String := String.mk (s.data.take n)

/-- Python `s.strip()`. -/
def strip (s : String) : String :=
  String.mk (((s.data.dropWhile pyIsSpace).reverse.dropWhile pyIsSpace).reverse)

/-- Python `s.startswith(p)`. -/
def startsWith (s p : String) : Bool := p.data.isPrefixOf s.data

/-- Python `s.endswith(p)`. -/
def endsWith (s p : String) : Bool := p.data.isSuffixOf s.data

/-- Python `s.count(c)` for a single-character needle. -/
def countChar (s : String) (c : Char) : Nat := s.data.count c

/-- Helper for the Python substring test: does `sub` occur inside `l`? -/
def containsChars (sub : List Char) : List Char → Bool
  | [] => sub.isEmpty
  | c :: cs => sub.isPrefixOf (c :: cs) || containsChars sub cs

/-- Python substring test `sub in s`. -/
def containsSub (s sub : String) : Bool := containsChars sub.data s.data

/-- Helper for `split`: split a character list on a separator character. -/
def splitOnChar (sep : Char) : List Char → List (List Char)
  | [] => [[]]
  | c :: cs =>
    if c = sep then [] :: splitOnChar sep cs
    else
      match splitOnChar sep cs with
      | [] => [[c]]
      | h :: t => (c :: h) :: t

/-- Python `s.split('\n')` (never returns an empty list). -/
def splitLines (s : String) : List String :=
  (splitOnChar '\n' s.data).map String.mk

end Py

/-- JSON-like values, embedding the heterogeneous Python dict/list values
that the analyzer places in its metric / quality / complexity dictionaries. -/
inductive Val where
  | vInt (n : Int)
  | vRat (q : Rat)
  | vBool (b : Bool)
  | vStr (s : String)
  | vNone
  | vList (l : List Val)
  | vDict (d : List (String × Val))

/-- The association-list embedding of a fixed-key Python dict. -/
abbrev Dict := List (String × Val)

/-- An analysis finding.  Every construction site in the source writes the
keys title/description/severity/suggestion and optionally line_number
(absent = the key is missing from the dict, embedded as `none`). -/
structure Issue where
  title : String
  description : String
  severity : String
  suggestion : String
  line_number : Option Int
deriving DecidableEq, Repr

/-- The bundle returned by `StaticAnalyzer.analyze`; every active return
site of the source writes exactly these four keys. -/
structure AnalysisBundle where
  issues : List Issue
  metrics : Dict
  quality_indicators : Dict
  complexity_analysis : Dict

/-- The dict returned by `CodeExecutor.execute`; every return site of the
source writes exactly these four keys. -/
structure ExecutionResult where
  output : String
  error : String
  execution_time : Rat
  success : Bool
deriving DecidableEq, Repr

/-- Serialize an `Issue` back into its Python dict shape. -/
def Issue.toVal (i : Issue) : Val :=
  .vDict [("title", .vStr i.title), ("description", .vStr i.description),
          ("severity", .vStr i.severity), ("suggestion", .vStr i.suggestion),
          ("line_number", match i.line_number with
                          | some n => .vInt n
                          | none => .vNone)]

/-- Serialize an `AnalysisBundle` back into its Python dict shape. -/
def AnalysisBundle.toDict (b : AnalysisBundle) : Dict :=
  [("issues", .vList (b.issues.map Issue.toVal)),
   ("metrics", .vDict b.metrics),
   ("quality_indicators", .vDict b.quality_indicators),
   ("complexity_analysis", .vDict b.complexity_analysis)]

/-- Serialize an `ExecutionResult` back into its Python dict shape. -/
def ExecutionResult.toDict (r : ExecutionResult) : Dict :=
  [("output", .vStr r.output), ("error", .vStr r.error),
   ("execution_time", .vRat r.execution_time), ("success", .vBool r.success)]

/-- The keys that `analyze` must always return
(spec: issues, metrics, quality_indicators, complexity_analysis). -/
def requiredBundleKeys : List String :=
  ["issues", "metrics", "quality_indicators", "complexity_analysis"]

/-- The keys that `execute` must always return
(spec: output, error, execution_time, success). -/
def requiredExecKeys : List String :=
  ["output", "error", "execution_time", "success"]

/-- All the given keys are present in the dict. -/
def hasKeys (d : Dict) (ks : List String) : Prop :=
  ∀ k ∈ ks, (d.lookup k).isSome = true

/-! ## Executor (`code_executor.py`) -/

/-- `CodeExecutor.__init__`: `self.timeout = 5`. -/
def executorTimeout : Nat := 5

/-- `CodeExecutor.__init__`: `self.max_output_length = 10000`. -/
def maxOutputLength : Nat := 10000

/-- Python's `round(x, 3)` (the tie-breaking rule of the host's rounding is
immaterial to every claim: the only execution-time value any claim pins down
is the timeout path, which the source returns unrounded). -/
def round3 (q : Rat) : Rat := (round (q * 1000) : Int) / 1000

/-- The timeout message `f"Execution timeout ({self.timeout}s exceeded)"`. -/
def timeoutMsg : String :=
  "Execution timeout (" ++ toString executorTimeout ++ "s exceeded)"

/-- Observable resource actions of one `execute` call: temporary file
creation/deletion (`dir = some d` when the file lives in temp directory
`d`), temp directory creation/removal, and forced process termination. -/
inductive Act where
  | createFile (dir : Option String) (name : String)
  | unlink (dir : Option String) (name : String)
  | mkdirTemp (d : String)
  | rmtree (d : String)
  | killProc
deriving DecidableEq, Repr

/-- Filesystem state: the set of temp files (with their containing temp
directory, if any) and temp directories currently existing. -/
structure FsState where
  files : List (Option String × String)
  dirs : List String
deriving DecidableEq, Repr

/-- Interpret one action.  `rmtree d` removes the directory and every file
inside it (as `shutil.rmtree` does). -/
def applyAct (st : FsState) (a : Act) : FsState :=
  match a with
  | .createFile d n => ⟨(d, n) :: st.files, st.dirs⟩
  | .unlink d n => ⟨st.files.filter (fun p => !(p == (d, n))), st.dirs⟩
  | .mkdirTemp d => ⟨st.files, d :: st.dirs⟩
  | .rmtree d => ⟨st.files.filter (fun p => !(p.1 == some d)),
                  st.dirs.filter (fun x => !(x == d))⟩
  | .killProc => st

/-- Run a trace from the empty filesystem. -/
def runActs (l : List Act) : FsState := l.foldl applyAct ⟨[], []⟩

/-- Outcome of an awaited child process: normal completion with exit status
and captured stdout/stderr, or expiry of the `asyncio.wait_for` timeout. -/
inductive ProcOut where
  | completed (rc : Int) (stdout stderr : String)
  | timedOut

/-- Where `_execute_python` can go after entry: an exception before
`tempfile.NamedTemporaryFile` created the file; an exception raised by
`f.write(code)` after the file exists on disk but before `temp_file = f.name`
was assigned (e.g. a `UnicodeEncodeError` for a lone surrogate under strict
UTF-8, or a disk-full `OSError`); an exception after the name was recorded
(e.g. spawn failure); or an awaited process outcome. -/
inductive PyOutcome where
  | raisedBeforeTmp (msg : String)
  | writeRaised (msg : String)
  | raisedAfterTmp (msg : String)
  | finished (p : ProcOut)

/-- Does this outcome take the write-failure path? -/
def PyOutcome.isWriteRaised : PyOutcome → Bool
  | .writeRaised _ => true
  | _ => false

/-- Environment of one `_execute_python` call: the unique temp file name
chosen by `tempfile`, the elapsed wall-clock time read at the return point,
and the process outcome. -/
structure PyRunEnv where
  tmpName : String
  elapsed : Rat
  outcome : PyOutcome

/-- `CodeExecutor._execute_python` (Unix branch of the source; the Windows
branch funnels the identical result shape through a worker thread).  In the
write-failure case the temp file has been created but the handler's
`if temp_file and os.path.exists(temp_file)` guard sees `temp_file` still
`None` and skips the unlink, so the trace records the creation with no
matching deletion — the file leaks. -/
def execute_python (env : PyRunEnv) : ExecutionResult × List Act :=
  match env.outcome with
  | .raisedBeforeTmp m =>
      (⟨"", "Execution error: " ++ m, env.elapsed, false⟩, [])
  | .writeRaised m =>
      (⟨"", "Execution error: " ++ m, env.elapsed, false⟩,
       [.createFile none env.tmpName])
  | .raisedAfterTmp m =>
      (⟨"", "Execution error: " ++ m, env.elapsed, false⟩,
       [.createFile none env.tmpName, .unlink none env.tmpName])
  | .finished (.completed rc out err) =>
      let output := Py.take out maxOutputLength
      let error := Py.take err maxOutputLength
      (⟨if output = "" then "" else Py.strip output,
        if error = "" then "" else Py.strip error,
        round3 env.elapsed,
        rc == 0 && error == ""⟩,
       [.createFile none env.tmpName, .unlink none env.tmpName])
  | .finished .timedOut =>
      (⟨"", timeoutMsg, (executorTimeout : Rat), false⟩,
       [.createFile none env.tmpName, .killProc, .unlink none env.tmpName])

/-- Where `_execute_javascript` can go: as `PyOutcome` (including the
write-failure path), plus `node` may be missing (`FileNotFoundError`). -/
inductive JsOutcome where
  | raisedBeforeTmp (msg : String)
  | writeRaised (msg : String)
  | nodeMissing
  | raisedAfterTmp (msg : String)
  | finished (p : ProcOut)

/-- Does this outcome take the write-failure path? -/
def JsOutcome.isWriteRaised : JsOutcome → Bool
  | .writeRaised _ => true
  | _ => false

/-- Environment of one `_execute_javascript` call. -/
structure JsRunEnv where
  tmpName : String
  elapsed : Rat
  outcome : JsOutcome

/-- `CodeExecutor._execute_javascript` (Unix branch).  As in
`execute_python`, a write failure leaves the created temp file undeleted:
the catch-all handler's `temp_file` is still `None`. -/
def execute_javascript (env : JsRunEnv) : ExecutionResult × List Act :=
  match env.outcome with
  | .raisedBeforeTmp m =>
      (⟨"", "Execution error: " ++ m, env.elapsed, false⟩, [])
  | .writeRaised m =>
      (⟨"", "Execution error: " ++ m, env.elapsed, false⟩,
       [.createFile none env.tmpName])
  | .nodeMissing =>
      (⟨"", "Node.js not found. Please install Node.js to execute JavaScript code.",
        0, false⟩,
       [.createFile none env.tmpName, .unlink none env.tmpName])
  | .raisedAfterTmp m =>
      (⟨"", "Execution error: " ++ m, env.elapsed, false⟩,
       [.createFile none env.tmpName, .unlink none env.tmpName])
  | .finished (.completed rc out err) =>
      let output := Py.take out maxOutputLength
      let error := Py.take err maxOutputLength
      (⟨if output = "" then "" else Py.strip output,
        if error = "" then "" else Py.strip error,
        round3 env.elapsed,
        rc == 0 && error == ""⟩,
       [.createFile none env.tmpName, .unlink none env.tmpName])
  | .finished .timedOut =>
      (⟨"", timeoutMsg, (executorTimeout : Rat), false⟩,
       [.createFile none env.tmpName, .killProc, .unlink none env.tmpName])

/-- Outcome of the Piston online-fallback HTTP call in `_execute_java_online`. -/
inductive OnlineOutcome where
  | ok (outText errText : String) (codeField : Int)
  | badStatus
  | raised (msg : String)

/-- `CodeExecutor._execute_java_online`. -/
def execute_java_online (elapsed : Rat) (o : OnlineOutcome) : ExecutionResult :=
  match o with
  | .ok outText errText codeField =>
      let output := Py.strip outText
      let stderr := Py.strip errText
      ⟨if output = "" then "" else output,
       if stderr = "" then "" else stderr,
       round3 elapsed,
       codeField == 0⟩
  | .badStatus =>
      ⟨"", "Online Java compiler unavailable. Please try again.", elapsed, false⟩
  | .raised m =>
      ⟨"", "Java execution unavailable: " ++ m, elapsed, false⟩

/-- Where `_execute_java` can go once a public class name was found:
`javac` missing (falls back to the online service), compile failure, a run
outcome, or an internal exception inside the temp-directory scope. -/
inductive JavaOutcome where
  | toolMissing
  | compileFailed (compileStderr : String)
  | ran (p : ProcOut)
  | raisedInside (msg : String)

/-- Environment of one `_execute_java` call.  `classMatch` is the result of
the `re.search(r'public\s+class\s+(\w+)', code)` oracle. -/
structure JavaRunEnv where
  classMatch : Option String
  dirName : String
  elapsed : Rat
  outcome : JavaOutcome
  online : OnlineOutcome

/-- `CodeExecutor._execute_java` (Unix branch).  The `finally` block removes
the whole temp directory on every exit path, including the `.class` file the
compiler wrote into it. -/
def execute_java (env : JavaRunEnv) : ExecutionResult × List Act :=
  match env.classMatch with
  | none => (⟨"", "No public class found in Java code", 0, false⟩, [])
  | some cls =>
    match env.outcome with
    | .toolMissing =>
        (execute_java_online env.elapsed env.online,
         [.mkdirTemp env.dirName, .createFile (some env.dirName) (cls ++ ".java"),
          .rmtree env.dirName])
    | .compileFailed cstderr =>
        (⟨"", "Compilation error:\n" ++ cstderr, env.elapsed, false⟩,
         [.mkdirTemp env.dirName, .createFile (some env.dirName) (cls ++ ".java"),
          .rmtree env.dirName])
    | .ran (.completed rc out err) =>
        (⟨Py.strip (Py.take out maxOutputLength),
          Py.strip (Py.take err maxOutputLength),
          round3 env.elapsed,
          rc == 0 && err == ""⟩,
         [.mkdirTemp env.dirName, .createFile (some env.dirName) (cls ++ ".java"),
          .createFile (some env.dirName) (cls ++ ".class"),
          .rmtree env.dirName])
    | .ran .timedOut =>
        (⟨"", timeoutMsg, (executorTimeout : Rat), false⟩,
         [.mkdirTemp env.dirName, .createFile (some env.dirName) (cls ++ ".java"),
          .createFile (some env.dirName) (cls ++ ".class"),
          .killProc, .rmtree env.dirName])
    | .raisedInside m =>
        (⟨"", "Execution error: " ++ m, env.elapsed, false⟩,
         [.mkdirTemp env.dirName, .createFile (some env.dirName) (cls ++ ".java"),
          .rmtree env.dirName])

/-- Where `_execute_cpp` can go: exception before the source temp file
exists, the write-failure path (file created, `f.write` raised before
`source_file` was assigned), `g++` missing, compile failure, a run outcome,
or an exception after the source file exists. -/
inductive CppOutcome where
  | raisedBeforeTmp (msg : String)
  | writeRaised (msg : String)
  | toolMissing
  | compileFailed (compileStderr : String)
  | ran (p : ProcOut)
  | raisedAfterSrc (msg : String)

/-- Does this outcome take the write-failure path? -/
def CppOutcome.isWriteRaised : CppOutcome → Bool
  | .writeRaised _ => true
  | _ => false

/-- Environment of one `_execute_cpp` call.  `exeName` stands for
`source_file.replace('.cpp', '.exe')`; the name itself is immaterial to
every claim, only its creation and deletion are tracked. -/
structure CppRunEnv where
  srcName : String
  exeName : String
  elapsed : Rat
  outcome : CppOutcome

/-- `CodeExecutor._execute_cpp` (Unix branch).  On compile failure no binary
was produced, so only the source file is removed (matching the source's
`os.path.exists` guards); on a write failure the created source file is not
removed, because `source_file` is still `None` in the handler. -/
def execute_cpp (env : CppRunEnv) : ExecutionResult × List Act :=
  match env.outcome with
  | .raisedBeforeTmp m =>
      (⟨"", "Execution error: " ++ m, env.elapsed, false⟩, [])
  | .writeRaised m =>
      (⟨"", "Execution error: " ++ m, env.elapsed, false⟩,
       [.createFile none env.srcName])
  | .toolMissing =>
      (⟨"", "C++ compiler not found. Please install g++ to execute C++ code.",
        0, false⟩,
       [.createFile none env.srcName, .unlink none env.srcName])
  | .compileFailed cstderr =>
      (⟨"", "Compilation error:\n" ++ cstderr, env.elapsed, false⟩,
       [.createFile none env.srcName, .unlink none env.srcName])
  | .ran (.completed rc out err) =>
      (⟨Py.strip (Py.take out maxOutputLength),
        Py.strip (Py.take err maxOutputLength),
        round3 env.elapsed,
        rc == 0 && err == ""⟩,
       [.createFile none env.srcName, .createFile none env.exeName,
        .unlink none env.srcName, .unlink none env.exeName])
  | .ran .timedOut =>
      (⟨"", timeoutMsg, (executorTimeout : Rat), false⟩,
       [.createFile none env.srcName, .createFile none env.exeName,
        .killProc, .unlink none env.srcName, .unlink none env.exeName])
  | .raisedAfterSrc m =>
      (⟨"", "Execution error: " ++ m, env.elapsed, false⟩,
       [.createFile none env.srcName, .unlink none env.srcName])

/-- Environment of one `CodeExecutor.execute` call.  `exc` models an
exception escaping the language-specific helper and being caught by the
entry point's outermost `except Exception` handler. -/
structure ExecEnv where
  exc : Option String
  py : PyRunEnv
  js : JsRunEnv
  java : JavaRunEnv
  cpp : CppRunEnv

/-- `CodeExecutor.execute`: dispatch on the language string, with the
outermost catch-all converting any escaped exception into an error-shaped
result. -/
def execute (env : ExecEnv) (_code lang : String) : ExecutionResult × List Act :=
  match env.exc with
  | some m => (⟨"", m, 0, false⟩, [])
  | none =>
    if lang = "python" then execute_python env.py
    else if lang = "javascript" ∨ lang = "typescript" then execute_javascript env.js
    else if lang = "java" then execute_java env.java
    else if lang = "cpp" ∨ lang = "c" then execute_cpp env.cpp
    else (⟨"", "Code execution not supported for " ++ lang, 0, false⟩, [])

/-! ## Python AST (`ast` module, as used by the analyzer) -/

/-- A formal parameter of a function definition.  The analyzer only tests
`arg.annotation` for truthiness, so the annotation subtree is abstracted to
its presence. -/
structure PyArg where
  aname : String
  hasAnn : Bool

/-- A literal constant; the analyzer only distinguishes string constants
(for the docstring check). -/
inductive PyConst where
  | str (s : String)
  | other

/-- Python AST nodes, covering every node kind the analyzer inspects plus
generic expression formers so that arbitrary expression trees exist. -/
inductive PyNode where
  | module (body : List PyNode)
  | functionDef (name : String) (args : List PyArg) (defaults : List PyNode)
      (body : List PyNode) (returnsAnn : Option PyNode) (lineno : Int)
  | classDef (name : String) (body : List PyNode) (lineno : Int)
  | ifStmt (test : PyNode) (body : List PyNode) (orelse : List PyNode)
  | forStmt (target : PyNode) (iter : PyNode) (body : List PyNode) (orelse : List PyNode)
  | whileStmt (test : PyNode) (body : List PyNode) (orelse : List PyNode)
  | tryStmt (body : List PyNode) (handlers : List PyNode)
      (orelse : List PyNode) (finalbody : List PyNode)
  | exceptHandler (etype : Option PyNode) (body : List PyNode) (lineno : Int)
  | withStmt (body : List PyNode)
  | importStmt (names : List String)
  | importFrom (modName : String) (names : List String)
  | assign (targets : List PyNode) (value : PyNode)
  | exprStmt (value : PyNode)
  | ret (value : Option PyNode)
  | passStmt
  | nameExpr (id : String)
  | boolOp (values : List PyNode)
  | constant (c : PyConst)
  | listLit (elts : List PyNode)
  | dictLit (vals : List PyNode)
  | setLit (elts : List PyNode)
  | callExpr (fn : PyNode) (callArgs : List PyNode)
  | binOp (lhs rhs : PyNode)
  | compareOp (lhs : PyNode) (rhs : List PyNode)

mutual

/-- `ast.walk(t)`: the node itself and every descendant. -/
def walkN : PyNode → List PyNode
  | .module body => .module body :: walkL body
  | .functionDef name args defaults body returnsAnn lineno =>
      .functionDef name args defaults body returnsAnn lineno ::
        (walkL defaults ++ walkL body ++ walkO returnsAnn)
  | .classDef name body lineno => .classDef name body lineno :: walkL body
  | .ifStmt test body orelse =>
      .ifStmt test body orelse :: (walkN test ++ walkL body ++ walkL orelse)
  | .forStmt target iter body orelse =>
      .forStmt target iter body orelse ::
        (walkN target ++ walkN iter ++ walkL body ++ walkL orelse)
  | .whileStmt test body orelse =>
      .whileStmt test body orelse :: (walkN test ++ walkL body ++ walkL orelse)
  | .tryStmt body handlers orelse finalbody =>
      .tryStmt body handlers orelse finalbody ::
        (walkL body ++ walkL handlers ++ walkL orelse ++ walkL finalbody)
  | .exceptHandler etype body lineno =>
      .exceptHandler etype body lineno :: (walkO etype ++ walkL body)
  | .withStmt body => .withStmt body :: walkL body
  | .importStmt names => [.importStmt names]
  | .importFrom modName names => [.importFrom modName names]
  | .assign targets value => .assign targets value :: (walkL targets ++ walkN value)
  | .exprStmt value => .exprStmt value :: walkN value
  | .ret value => .ret value :: walkO value
  | .passStmt => [.passStmt]
  | .nameExpr id => [.nameExpr id]
  | .boolOp values => .boolOp values :: walkL values
  | .constant c => [.constant c]
  | .listLit elts => .listLit elts :: walkL elts
  | .dictLit vals => .dictLit vals :: walkL vals
  | .setLit elts => .setLit elts :: walkL elts
  | .callExpr fn callArgs => .callExpr fn callArgs :: (walkN fn ++ walkL callArgs)
  | .binOp lhs rhs => .binOp lhs rhs :: (walkN lhs ++ walkN rhs)
  | .compareOp lhs rhs => .compareOp lhs rhs :: (walkN lhs ++ walkL rhs)

/-- Walk every node of a list of trees. -/
def walkL : List PyNode → List PyNode
  | [] => []
  | n :: ns => walkN n ++ walkL ns

/-- Walk an optional tree. -/
def walkO : Option PyNode → List PyNode
  | none => []
  | some n => walkN n

end

/-- `isinstance(node, (ast.If, ast.For, ast.While, ast.ExceptHandler))`. -/
def isBranchB : PyNode → Bool
  | .ifStmt _ _ _ => true
  | .forStmt _ _ _ _ => true
  | .whileStmt _ _ _ => true
  | .exceptHandler _ _ _ => true
  | _ => false

/-- `isinstance(node, ast.BoolOp)`. -/
def isBoolOpB : PyNode → Bool
  | .boolOp _ => true
  | _ => false

/-- `isinstance(node, ast.FunctionDef)`. -/
def isFunctionDefB : PyNode → Bool
  | .functionDef _ _ _ _ _ _ => true
  | _ => false

/-- `isinstance(default, (ast.List, ast.Dict, ast.Set))`. -/
def isMutableLitB : PyNode → Bool
  | .listLit _ => true
  | .dictLit _ => true
  | .setLit _ => true
  | _ => false

/-- A bare `except:` handler (`node.type is None`). -/
def isBareExceptB : PyNode → Bool
  | .exceptHandler none _ _ => true
  | _ => false

/-- One walk step of the complexity loop in `_analyze_python_complexity` /
`_calculate_function_complexity`: `+1` for a branching node, else
`+ (len(node.values) - 1)` for a boolean-operator node, else `+0`. -/
def contrib (n : PyNode) : Int :=
  if isBranchB n then 1
  else match n with
       | .boolOp values => (values.length : Int) - 1
       | _ => 0

/-- The module-level cyclomatic complexity accumulated over `ast.walk`. -/
def cyclomaticComplexity (t : PyNode) : Int :=
  (walkN t).foldl (fun acc n => acc + contrib n) 1

/-- `StaticAnalyzer._calculate_function_complexity`. -/
def functionComplexity (f : PyNode) : Int :=
  (walkN f).foldl (fun acc n => acc + contrib n) 1

/-- Nodes that increment the nesting counter in
`_calculate_max_nesting_depth` (If, For, While, With, Try). -/
def isNesterB : PyNode → Bool
  | .ifStmt _ _ _ => true
  | .forStmt _ _ _ _ => true
  | .whileStmt _ _ _ => true
  | .withStmt _ => true
  | .tryStmt _ _ _ _ => true
  | _ => false

mutual

/-- `get_depth(node, current_depth)` from
`_calculate_max_nesting_depth`: the running maximum starts at the incoming
depth, the depth is incremented for nesting constructs, and children are
visited at the (possibly incremented) depth. -/
def depthN : PyNode → Nat → Nat
  | .module body, d => max d (depthL body (if isNesterB (.module body) then d + 1 else d))
  | .functionDef _ _ defaults body returnsAnn _, d =>
      max d (max (depthL defaults d) (max (depthL body d) (depthO returnsAnn d)))
  | .classDef _ body _, d => max d (depthL body d)
  | .ifStmt test body orelse, d =>
      max d (max (depthN test (d + 1)) (max (depthL body (d + 1)) (depthL orelse (d + 1))))
  | .forStmt target iter body orelse, d =>
      max d (max (depthN target (d + 1))
        (max (depthN iter (d + 1)) (max (depthL body (d + 1)) (depthL orelse (d + 1)))))
  | .whileStmt test body orelse, d =>
      max d (max (depthN test (d + 1)) (max (depthL body (d + 1)) (depthL orelse (d + 1))))
  | .tryStmt body handlers orelse finalbody, d =>
      max d (max (depthL body (d + 1)) (max (depthL handlers (d + 1))
        (max (depthL orelse (d + 1)) (depthL finalbody (d + 1)))))
  | .exceptHandler etype body _, d => max d (max (depthO etype d) (depthL body d))
  | .withStmt body, d => max d (depthL body (d + 1))
  | .importStmt _, d => d
  | .importFrom _ _, d => d
  | .assign targets value, d => max d (max (depthL targets d) (depthN value d))
  | .exprStmt value, d => max d (depthN value d)
  | .ret value, d => max d (depthO value d)
  | .passStmt, d => d
  | .nameExpr _, d => d
  | .boolOp values, d => max d (depthL values d)
  | .constant _, d => d
  | .listLit elts, d => max d (depthL elts d)
  | .dictLit vals, d => max d (depthL vals d)
  | .setLit elts, d => max d (depthL elts d)
  | .callExpr fn callArgs, d => max d (max (depthN fn d) (depthL callArgs d))
  | .binOp lhs rhs, d => max d (max (depthN lhs d) (depthN rhs d))
  | .compareOp lhs rhs, d => max d (max (depthN lhs d) (depthL rhs d))

/-- Maximum of `depthN` over a list of children (0 when empty, which the
surrounding `max d _` absorbs, as in the source's loop). -/
def depthL : List PyNode → Nat → Nat
  | [], _ => 0
  | n :: ns, d => max (depthN n d) (depthL ns d)

/-- `depthN` on an optional child. -/
def depthO : Option PyNode → Nat → Nat
  | none, _ => 0
  | some n, d => depthN n d

end

/-- `StaticAnalyzer._calculate_max_nesting_depth`. -/
def maxNestingDepth (t : PyNode) : Nat := depthN t 0

/-! ## Static analyzer (`static_analyzer.py`) -/

/-- A syntax error reported by `ast.parse`: the reported line number and
the text of `str(e)`. -/
structure SynErr where
  lineno : Int
  msg : String

/-- One record of pylint's JSON output, restricted to the fields the
analyzer reads (`type`, `message-id`, `message`). -/
structure PylintItem where
  ptype : String
  messageId : String
  message : String

/-- The severity mapping in `_run_pylint`:
`"error" if item.get("type") == "error" else "warning"`. -/
def pylintSeverity (t : String) : String :=
  if t = "error" then "error" else "warning"

/-- `StaticAnalyzer._get_pylint_suggestion`. -/
def pylintSuggestion (mid : String) : String :=
  if mid = "C0103" then "Use snake_case for variable names"
  else if mid = "W0613" then "Remove unused parameters or prefix with underscore"
  else if mid = "R0903" then "Consider adding more methods or combining with other classes"
  else if mid = "R0913" then "Reduce number of parameters or use a configuration object"
  else "Follow Python PEP 8 style guidelines"

/-- `StaticAnalyzer._run_pylint`: `none` models the tool being absent,
timing out, or emitting unparseable output (all of which make the helper
return an empty issue list); `some items` models a successful run, of which
the first 10 records are mapped to issues. -/
def run_pylint (items : Option (List PylintItem)) : List Issue :=
  match items with
  | none => []
  | some l =>
      (l.take 10).map (fun it =>
        ⟨it.messageId, it.message, pylintSeverity it.ptype,
         pylintSuggestion it.messageId, none⟩)

/-- A line that counts as code in the Python metric pass:
`line.strip() and not line.strip().startswith('#')`. -/
def isPyCodeLine (l : String) : Bool :=
  !(Py.strip l == "") && !(Py.startsWith (Py.strip l) "#")

/-- A line that counts as a comment: `line.strip().startswith('#')`. -/
def isPyCommentLine (l : String) : Bool := Py.startsWith (Py.strip l) "#"

/-- `len(node.targets)` summed over `ast.Assign` nodes. -/
def assignTargets : PyNode → Nat
  | .assign targets _ => targets.length
  | _ => 0

/-- `StaticAnalyzer._extract_python_metrics`.  The source's method counter
is guarded by `hasattr(node, 'parent')`, an attribute `ast.parse` never
sets, so every `FunctionDef` increments `functions` and `methods` stays 0. -/
def extract_python_metrics (t : PyNode) (code : String) : Dict :=
  let lines := Py.splitLines code
  let w := walkN t
  [("total_lines", .vInt lines.length),
   ("code_lines", .vInt (lines.filter isPyCodeLine).length),
   ("comment_lines", .vInt (lines.filter isPyCommentLine).length),
   ("blank_lines", .vInt (lines.filter (fun l => Py.strip l == "")).length),
   ("functions", .vInt (w.filter isFunctionDefB).length),
   ("classes", .vInt (w.filter (fun n => match n with
       | .classDef _ _ _ => true | _ => false)).length),
   ("methods", .vInt 0),
   ("loops", .vInt (w.filter (fun n => match n with
       | .forStmt _ _ _ _ => true | .whileStmt _ _ _ => true | _ => false)).length),
   ("conditions", .vInt (w.filter (fun n => match n with
       | .ifStmt _ _ _ => true | _ => false)).length),
   ("try_blocks", .vInt (w.filter (fun n => match n with
       | .tryStmt _ _ _ _ => true | _ => false)).length),
   ("imports", .vInt (w.filter (fun n => match n with
       | .importStmt _ => true | .importFrom _ _ => true | _ => false)).length),
   ("variables", .vInt ((w.map assignTargets).sum : Nat)),
   ("max_line_length", .vInt ((lines.map Py.strLen).foldl max 0 : Nat)),
   ("avg_line_length", .vRat (if lines.length = 0 then 0
       else ((lines.map Py.strLen).sum : Rat) / (lines.length : Rat)))]

/-- `StaticAnalyzer._analyze_python_complexity`: module-level cyclomatic
complexity, maximum nesting depth, and per-function complexities in walk
order; `class_complexities` is never populated by the source. -/
def analyze_python_complexity (t : PyNode) : Dict :=
  [("cyclomatic_complexity", .vInt (cyclomaticComplexity t)),
   ("nesting_depth", .vInt (maxNestingDepth t : Nat)),
   ("function_complexities", .vList ((walkN t).filterMap (fun n =>
      match n with
      | .functionDef name args defaults body returnsAnn lineno =>
          some (.vDict [("name", .vStr name),
            ("complexity", .vInt (functionComplexity
              (.functionDef name args defaults body returnsAnn lineno))),
            ("line_number", .vInt lineno)])
      | _ => none))),
   ("class_complexities", .vList [])]

/-- First statement of a function/class body is a bare string constant. -/
def hasDocstringB : PyNode → Bool
  | .functionDef _ _ _ (.exprStmt (.constant (.str _)) :: _) _ _ => true
  | .classDef _ (.exprStmt (.constant (.str _)) :: _) _ => true
  | _ => false

/-- `node.returns or any(arg.annotation for arg in node.args.args)`. -/
def hasTypeHintB : PyNode → Bool
  | .functionDef _ args _ _ returnsAnn _ =>
      returnsAnn.isSome || args.any (fun a => a.hasAnn)
  | _ => false

/-- `isinstance(node, (ast.Try, ast.ExceptHandler))`. -/
def isTryOrHandlerB : PyNode → Bool
  | .tryStmt _ _ _ _ => true
  | .exceptHandler _ _ _ => true
  | _ => false

/-- `StaticAnalyzer._analyze_python_quality`. -/
def analyze_python_quality (t : PyNode) (code : String) : Dict :=
  let lines := Py.splitLines code
  let commentLines := (lines.filter isPyCommentLine).length
  let codeLines := (lines.filter isPyCodeLine).length
  [("has_docstrings", .vBool ((walkN t).any hasDocstringB)),
   ("has_type_hints", .vBool ((walkN t).any hasTypeHintB)),
   ("has_error_handling", .vBool ((walkN t).any isTryOrHandlerB)),
   ("follows_naming_conventions", .vBool true),
   ("documentation_ratio", .vRat (if 0 < codeLines
       then (commentLines : Rat) / (codeLines : Rat) else 0)),
   ("test_coverage_indicators", .vList [])]

/-- `StaticAnalyzer._check_python_syntax_issues` (unused-import check). -/
def check_python_syntax_issues (t : PyNode) : List Issue :=
  let imports := (walkN t).flatMap (fun n =>
    match n with
    | .importStmt names => names
    | .importFrom _ names => names
    | _ => [])
  let usedNames := (walkN t).filterMap (fun n =>
    match n with
    | .nameExpr id => some id
    | _ => none)
  let unused := imports.filter (fun i => !(usedNames.contains i))
  if unused = [] then []
  else
    [⟨"Unused Imports",
      "Found unused imports: " ++ String.intercalate ", " unused,
      "warning",
      "Remove unused import statements to clean up the code", none⟩]

/-- The per-occurrence issue of the missing-blank-line loop in
`_check_python_style_issues` (index `i` is 0-based; the source reports line
`i+1`). -/
def missingBlankIssue (i : Nat) : Issue :=
  ⟨"Missing Blank Line",
   "Missing blank line before function/class definition",
   "info",
   "Add blank lines around top-level function and class definitions",
   some ((i : Int) + 1)⟩

/-- `StaticAnalyzer._check_python_style_issues`: one info issue if any line
exceeds 79 characters (reporting the first such line), plus one info issue
per function/class definition line whose preceding line is non-blank and
not a comment. -/
def check_python_style_issues (code : String) : List Issue :=
  let lines := Py.splitLines code
  let longLines := lines.enum.filter (fun p => 79 < Py.strLen p.2)
  let longIssue : List Issue :=
    match longLines with
    | [] => []
    | p :: _ =>
      [⟨"Long Lines",
        "Found " ++ toString longLines.length ++ " lines longer than 79 characters",
        "info",
        "Break long lines to improve readability (PEP 8)",
        some ((p.1 : Int) + 1)⟩]
  let blankIssues := lines.enum.flatMap (fun p =>
    if Py.startsWith (Py.strip p.2) "def " || Py.startsWith (Py.strip p.2) "class " then
      if p.1 = 0 then []
      else
        match lines.get? (p.1 - 1) with
        | some prev =>
            if !(Py.strip prev == "") && !(Py.startsWith (Py.strip prev) "#") then
              [missingBlankIssue p.1]
            else []
        | none => []
    else [])
  longIssue ++ blankIssues

/-- The mutable-default-argument issue of `_check_python_potential_bugs`,
naming the offending function. -/
def mutable_default_issue (name : String) (lineno : Int) : Issue :=
  ⟨"Mutable Default Argument",
   "Function '" ++ name ++ "' has mutable default argument",
   "warning",
   "Use None as default and create mutable object inside function",
   some lineno⟩

/-- The bare-except issue of `_check_python_potential_bugs`. -/
def bare_except_issue (lineno : Int) : Issue :=
  ⟨"Bare Except Clause",
   "Using bare 'except:' can catch system exit exceptions",
   "warning",
   "Specify exception types or use 'except Exception:'",
   some lineno⟩

/-- Per-node contribution of the mutable-default walk: one issue per
list/dict/set literal among the function's default values. -/
def mutableDefaultsOf : PyNode → List Issue
  | .functionDef name _ defaults _ _ lineno =>
      (defaults.filter isMutableLitB).map (fun _ => mutable_default_issue name lineno)
  | _ => []

/-- Per-node contribution of the bare-except walk. -/
def bareExceptsOf : PyNode → List Issue
  | .exceptHandler none _ lineno => [bare_except_issue lineno]
  | _ => []

/-- `StaticAnalyzer._check_python_potential_bugs`: the mutable-default walk
followed by the bare-except walk. -/
def check_python_potential_bugs (t : PyNode) : List Issue :=
  (walkN t).flatMap mutableDefaultsOf ++ (walkN t).flatMap bareExceptsOf

/-- The single issue of the `except SyntaxError` handler in
`_analyze_python`. -/
def syntax_error_issue (e : SynErr) : Issue :=
  ⟨"Syntax Error",
   "Python syntax error at line " ++ toString e.lineno ++ ": " ++ e.msg,
   "error",
   "Fix the syntax error before proceeding",
   some e.lineno⟩

/-- The left brace character (written via its code point). -/
def lbrace : Char := Char.ofNat 123

/-- The right brace character (written via its code point). -/
def rbrace : Char := Char.ofNat 125

/-- Regex-derived facts about a JavaScript/TypeScript source, one field per
`re.findall`/`re.search` call in the source (the regex engine itself is an
oracle of the environment; every plain string operation is implemented). -/
structure JsFacts where
  functionsRe : Nat
  arrowsRe : Nat
  classesRe : Nat
  methodsRe : Nat
  loopsRe : Nat
  condsRe : Nat
  tryRe : Nat
  importsRe : Nat
  exportsRe : Nat
  varsRe : Nat
  blockCommentsRe : Nat
  complexityKwRe : Nat
  funcTokensRe : Nat
  callbackRe : Nat
  looseEqRe : Bool
  hasTryCatchRe : Bool
  modernRe : Bool
  typeAnnRe : Bool
  domQueriesRe : Nat
  syncLoopRe : Bool

/-- A JS line that counts as code: `line.strip() and not
line.strip().startswith('//')`. -/
def isJsCodeLine (l : String) : Bool :=
  !(Py.strip l == "") && !(Py.startsWith (Py.strip l) "//")

/-- A JS line comment: `line.strip().startswith('//')`. -/
def isJsCommentLine (l : String) : Bool := Py.startsWith (Py.strip l) "//"

/-- `StaticAnalyzer._extract_js_metrics`. -/
def extract_js_metrics (f : JsFacts) (code : String) : Dict :=
  let lines := Py.splitLines code
  [("total_lines", .vInt lines.length),
   ("code_lines", .vInt (lines.filter isJsCodeLine).length),
   ("comment_lines", .vInt ((lines.filter isJsCommentLine).length + f.blockCommentsRe : Nat)),
   ("blank_lines", .vInt (lines.filter (fun l => Py.strip l == "")).length),
   ("functions", .vInt f.functionsRe),
   ("arrow_functions", .vInt f.arrowsRe),
   ("classes", .vInt f.classesRe),
   ("methods", .vInt f.methodsRe),
   ("loops", .vInt f.loopsRe),
   ("conditions", .vInt f.condsRe),
   ("try_blocks", .vInt f.tryRe),
   ("imports", .vInt f.importsRe),
   ("exports", .vInt f.exportsRe),
   ("variables", .vInt f.varsRe),
   ("max_line_length", .vInt ((lines.map Py.strLen).foldl max 0 : Nat)),
   ("avg_line_length", .vRat (if lines.length = 0 then 0
       else ((lines.map Py.strLen).sum : Rat) / (lines.length : Rat)))]

/-- Brace-depth estimate of `_analyze_js_complexity`: a character fold
tracking the current depth (floored at 0) and the maximum reached. -/
def braceDepth (code : String) : Nat :=
  (code.data.foldl (fun st c =>
    if c = lbrace then (st.1 + 1, max st.2 (st.1 + 1))
    else if c = rbrace then (st.1 - 1, st.2)
    else st) ((0, 0) : Nat × Nat)).2

/-- `StaticAnalyzer._analyze_js_complexity`. -/
def analyze_js_complexity (f : JsFacts) (code : String) : Dict :=
  [("cyclomatic_complexity", .vInt (1 + f.complexityKwRe : Nat)),
   ("nesting_depth", .vInt (braceDepth code : Nat)),
   ("function_count", .vInt f.funcTokensRe),
   ("callback_depth", .vInt f.callbackRe)]

/-- `StaticAnalyzer._analyze_js_quality`. -/
def analyze_js_quality (f : JsFacts) (code lang : String) : Dict :=
  let lines := Py.splitLines code
  let commentLines := (lines.filter isJsCommentLine).length + f.blockCommentsRe
  let codeLines := (lines.filter isJsCodeLine).length
  [("uses_strict_mode", .vBool (Py.containsSub code "'use strict'" ||
      Py.containsSub code "\"use strict\"")),
   ("has_error_handling", .vBool f.hasTryCatchRe),
   ("uses_modern_syntax", .vBool f.modernRe),
   ("has_type_annotations", .vBool (lang == "typescript" && f.typeAnnRe)),
   ("documentation_ratio", .vRat (if 0 < codeLines
       then (commentLines : Rat) / (codeLines : Rat) else 0)),
   ("uses_semicolons", .vBool (0 < Py.countChar code ';'))]

/-- The statement prefixes excluded by the missing-semicolon heuristic. -/
def jsStmtPrefixes : List String :=
  ["if", "for", "while", "function", "class", "//", "/*", "import", "export"]

/-- The line endings accepted by the missing-semicolon heuristic
(semicolon, braces, closing parenthesis, comma). -/
def jsLineEndings : List String := [";", "\x7b", "\x7d", ")", ","]

/-- Per-line contribution of the missing-semicolon loop in the active
`_check_js_syntax_issues` (0-based index `i`; the source reports `i+1`). -/
def jsSemicolonIssueAt (i : Nat) (line : String) : List Issue :=
  let stripped := Py.strip line
  if !(stripped == "") &&
     !(jsLineEndings.any (fun e => Py.endsWith stripped e)) &&
     !(jsStmtPrefixes.any (fun p => Py.startsWith stripped p)) then
    [⟨"Missing Semicolon",
      "Line " ++ toString (i + 1) ++ " might be missing a semicolon",
      "info",
      "Add semicolon at the end of the statement",
      some ((i : Int) + 1)⟩]
  else []

/-- The active `StaticAnalyzer._check_js_syntax_issues` (the second
definition in the class body, which shadows the first). -/
def check_js_syntax_issues (code : String) : List Issue :=
  (Py.splitLines code).enum.flatMap (fun p => jsSemicolonIssueAt p.1 p.2)

/-- The active `StaticAnalyzer._check_js_style_issues`. -/
def check_js_style_issues (f : JsFacts) (code : String) : List Issue :=
  (if Py.containsSub code "var " then
    [⟨"Use of 'var' keyword",
      "Found usage of 'var' which has function scope",
      "warning",
      "Use 'let' or 'const' instead of 'var' for block scope", none⟩]
   else []) ++
  (if f.looseEqRe then
    [⟨"Loose equality comparison",
      "Found usage of '==' which can cause type coercion issues",
      "warning",
      "Use '===' for strict equality comparison", none⟩]
   else []) ++
  (if Py.containsSub code "console.log" then
    [⟨"Console statements found",
      "Console.log statements should be removed in production",
      "info",
      "Remove console.log statements or use a proper logging library", none⟩]
   else [])

/-- The active `StaticAnalyzer._check_js_security_issues`. -/
def check_js_security_issues (code : String) : List Issue :=
  (if Py.containsSub code "eval(" then
    [⟨"Use of eval()",
      "eval() can execute arbitrary code and is a security risk",
      "error",
      "Avoid eval() and use safer alternatives like JSON.parse()", none⟩]
   else []) ++
  (if Py.containsSub code "innerHTML" then
    [⟨"Potential XSS vulnerability",
      "Using innerHTML can lead to XSS attacks",
      "warning",
      "Use textContent or sanitize HTML content", none⟩]
   else [])

/-- The active `StaticAnalyzer._check_js_performance_issues`. -/
def check_js_performance_issues (f : JsFacts) : List Issue :=
  (if 3 < f.domQueriesRe then
    [⟨"Multiple DOM queries",
      "Found " ++ toString f.domQueriesRe ++ " DOM queries which may impact performance",
      "info",
      "Cache DOM elements in variables to avoid repeated queries", none⟩]
   else []) ++
  (if f.syncLoopRe then
    [⟨"Synchronous operations in loop",
      "Performing async operations in loops can cause performance issues",
      "warning",
      "Use Promise.all() or async/await with proper batching", none⟩]
   else [])

/-- `StaticAnalyzer._analyze_javascript` (issues in extension order:
syntax, style, security, performance). -/
def analyze_javascript (f : JsFacts) (code lang : String) : AnalysisBundle :=
  ⟨check_js_syntax_issues code ++ check_js_style_issues f code ++
     check_js_security_issues code ++ check_js_performance_issues f,
   extract_js_metrics f code,
   analyze_js_quality f code lang,
   analyze_js_complexity f code⟩

/-- Regex-derived facts about a Java source. -/
structure JavaFacts where
  classesRe : Nat
  methodsRe : Nat
  interfacesRe : Nat
  loopsRe : Nat
  condsRe : Nat
  tryRe : Nat
  importsRe : Nat
  emptyCatchRe : Bool

/-- The active `StaticAnalyzer._extract_java_metrics`. -/
def extract_java_metrics (f : JavaFacts) (code : String) : Dict :=
  let lines := Py.splitLines code
  [("total_lines", .vInt lines.length),
   ("code_lines", .vInt (lines.filter isJsCodeLine).length),
   ("comment_lines", .vInt (lines.filter isJsCommentLine).length),
   ("blank_lines", .vInt (lines.filter (fun l => Py.strip l == "")).length),
   ("classes", .vInt f.classesRe),
   ("methods", .vInt f.methodsRe),
   ("interfaces", .vInt f.interfacesRe),
   ("loops", .vInt f.loopsRe),
   ("conditions", .vInt f.condsRe),
   ("try_blocks", .vInt f.tryRe),
   ("imports", .vInt f.importsRe)]

/-- The active `StaticAnalyzer._check_java_patterns`. -/
def check_java_patterns (f : JavaFacts) (code : String) : List Issue :=
  (if Py.containsSub code "System.out.println" then
    [⟨"Debug print statements",
      "Found System.out.println statements",
      "info",
      "Use proper logging framework instead of System.out.println", none⟩]
   else []) ++
  (if f.emptyCatchRe then
    [⟨"Empty catch block",
      "Empty catch blocks can hide exceptions",
      "warning",
      "Handle exceptions properly or at least log them", none⟩]
   else [])

/-- The active `StaticAnalyzer._analyze_java` (quality indicators and
complexity analysis stay empty dicts). -/
def analyze_java (f : JavaFacts) (code : String) : AnalysisBundle :=
  ⟨check_java_patterns f code, extract_java_metrics f code, [], []⟩

/-- Regex-derived facts about a C/C++ source. -/
structure CppFacts where
  functionsRe : Nat
  classesRe : Nat
  structsRe : Nat
  loopsRe : Nat
  condsRe : Nat
  includesRe : Nat
  pointersRe : Nat
  unsafeFnRe : Bool

/-- The active `StaticAnalyzer._extract_cpp_metrics`. -/
def extract_cpp_metrics (f : CppFacts) (code : String) : Dict :=
  let lines := Py.splitLines code
  [("total_lines", .vInt lines.length),
   ("code_lines", .vInt (lines.filter isJsCodeLine).length),
   ("comment_lines", .vInt (lines.filter isJsCommentLine).length),
   ("blank_lines", .vInt (lines.filter (fun l => Py.strip l == "")).length),
   ("functions", .vInt f.functionsRe),
   ("classes", .vInt f.classesRe),
   ("structs", .vInt f.structsRe),
   ("loops", .vInt f.loopsRe),
   ("conditions", .vInt f.condsRe),
   ("includes", .vInt f.includesRe),
   ("pointers", .vInt f.pointersRe)]

/-- The active `StaticAnalyzer._check_cpp_patterns`. -/
def check_cpp_patterns (f : CppFacts) (code : String) : List Issue :=
  (if Py.containsSub code "new " && !(Py.containsSub code "delete") then
    [⟨"Potential memory leak",
      "Found 'new' without corresponding 'delete'",
      "warning",
      "Ensure every 'new' has a corresponding 'delete' or use smart pointers", none⟩]
   else []) ++
  (if f.unsafeFnRe then
    [⟨"Unsafe function usage",
      "Using functions prone to buffer overflow",
      "error",
      "Use safer alternatives like fgets(), strncpy(), snprintf()", none⟩]
   else [])

/-- The active `StaticAnalyzer._analyze_cpp`. -/
def analyze_cpp (f : CppFacts) (code : String) : AnalysisBundle :=
  ⟨check_cpp_patterns f code, extract_cpp_metrics f code, [], []⟩

/-- Regex-derived facts for the generic fallback pass. -/
structure GenericFacts where
  estFunctionsRe : Nat
  estComplexitySwitchRe : Nat
  estComplexityCaseRe : Nat
  commentMarksRe : Nat
  hasCommentsRe : Bool

/-- The active `StaticAnalyzer._analyze_generic` (the second definition in
the class body, which returns all four bundle fields). -/
def analyze_generic (f : GenericFacts) (code lang : String) : AnalysisBundle :=
  let lines := Py.splitLines code
  ⟨[⟨"Limited Analysis for " ++ lang,
     "Full static analysis not available for " ++ lang,
     "info",
     "Consider using language-specific tools for detailed analysis", none⟩],
   [("total_lines", .vInt lines.length),
    ("code_lines", .vInt (lines.filter (fun l => !(Py.strip l == ""))).length),
    ("blank_lines", .vInt (lines.filter (fun l => Py.strip l == "")).length),
    ("estimated_functions", .vInt f.estFunctionsRe),
    ("estimated_complexity", .vInt (1 + f.estComplexitySwitchRe : Nat))],
   [("has_comments", .vBool f.hasCommentsRe),
    ("estimated_documentation_ratio", .vRat
       ((f.commentMarksRe : Rat) / (max 1 lines.length : Nat)))],
   [("cyclomatic_complexity", .vInt (1 + f.estComplexityCaseRe : Nat)),
    ("nesting_depth", .vInt (Py.countChar code lbrace / 2 : Nat))]⟩

/-- The active `StaticAnalyzer._create_error_result`. -/
def create_error_result (msg code lang : String) : AnalysisBundle :=
  let lines := Py.splitLines code
  ⟨[⟨"Analysis Error",
     "Failed to analyze " ++ lang ++ " code: " ++ msg,
     "error",
     "Check code syntax and structure", none⟩],
   [("total_lines", .vInt lines.length),
    ("code_lines", .vInt (lines.filter (fun l => !(Py.strip l == ""))).length),
    ("functions", .vInt 0),
    ("classes", .vInt 0),
    ("complexity", .vInt 1)],
   [], []⟩

/-- Environment of one `StaticAnalyzer.analyze` call: the `ast.parse`
oracle, the pylint sub-run, the regex oracles of the non-Python passes, and
an optional internal exception caught by the entry point's catch-all. -/
structure AnalyzerEnv where
  parse : String → Except SynErr PyNode
  pylint : Option (List PylintItem)
  js : JsFacts
  java : JavaFacts
  cpp : CppFacts
  generic : GenericFacts
  exc : Option String

/-- `StaticAnalyzer._analyze_python`: on a parse error, exactly the syntax
issue and the zero-default (empty) dicts; otherwise metrics, complexity and
quality plus the four issue passes in extension order (syntax, style,
potential bugs, pylint). -/
def analyze_python (env : AnalyzerEnv) (code : String) : AnalysisBundle :=
  match env.parse code with
  | .error e => ⟨[syntax_error_issue e], [], [], []⟩
  | .ok t =>
      ⟨check_python_syntax_issues t ++ check_python_style_issues code ++
         check_python_potential_bugs t ++ run_pylint env.pylint,
       extract_python_metrics t code,
       analyze_python_quality t code,
       analyze_python_complexity t⟩

/-- `StaticAnalyzer.analyze`: dispatch on the language string, with the
outermost catch-all converting any escaped exception into the error result. -/
def analyze (env : AnalyzerEnv) (code lang : String) : AnalysisBundle :=
  match env.exc with
  | some e => create_error_result e code lang
  | none =>
    if lang = "python" then analyze_python env code
    else if lang = "javascript" ∨ lang = "typescript" then
      analyze_javascript env.js code lang
    else if lang = "java" then analyze_java env.java code
    else if lang = "cpp" ∨ lang = "c" then analyze_cpp env.cpp code
    else analyze_generic env.generic code lang

/-! ## Specification-side counting functions and concrete environments -/

/-- The three severities of the spec's `Issue` data model. -/
def okSeverities : List String := ["error", "warning", "info"]

/-- Number of operands beyond the first of a boolean-operator node (the
spec's per-`BoolOp` increment), as a natural number. -/
def boolExtraN : PyNode → Nat
  | .boolOp values => values.length - 1
  | _ => 0

/-- A boolean-operator node produced by a real parse has at least one
operand (CPython guarantees at least two); other nodes are unconstrained. -/
def boolOpArityOK : PyNode → Bool
  | .boolOp values => !values.isEmpty
  | _ => true

/-- The number of branching constructs (if / for / while / except handler)
in the tree. -/
def branchCount (t : PyNode) : Nat := ((walkN t).filter isBranchB).length

/-- The total number of beyond-the-first boolean operands in the tree. -/
def boolExtraSum (t : PyNode) : Nat := ((walkN t).map boolExtraN).sum

/-- All-zero JS regex facts (used by concrete witness environments). -/
def zeroJsFacts : JsFacts :=
  ⟨0, 0, 0, 0, 0, 0, 0, 0, 0, 0, 0, 0, 0, 0, false, false, false, false, 0, false⟩

/-- All-zero Java regex facts. -/
def zeroJavaFacts : JavaFacts := ⟨0, 0, 0, 0, 0, 0, 0, false⟩

/-- All-zero C/C++ regex facts. -/
def zeroCppFacts : CppFacts := ⟨0, 0, 0, 0, 0, 0, 0, false⟩

/-- All-zero generic regex facts. -/
def zeroGenericFacts : GenericFacts := ⟨0, 0, 0, 0, false⟩

/-- Build an analyzer environment from a parse oracle, a pylint outcome and
an optional entry-point exception, with all-zero regex facts. -/
def mkAnalyzerEnv (p : String → Except SynErr PyNode)
    (pl : Option (List PylintItem)) (e : Option String) : AnalyzerEnv :=
  ⟨p, pl, zeroJsFacts, zeroJavaFacts, zeroCppFacts, zeroGenericFacts, e⟩

/-- The AST of `def f(a=[]):\n    pass`. -/
def demoBugTree : PyNode :=
  .module [.functionDef "f" [⟨"a", false⟩] [.listLit []] [.passStmt] none 1]

/-- The source text of the mutable-default demo. -/
def demoBugCode : String := "def f(a=[]):\n    pass"

/-- Environment whose parse oracle returns the mutable-default demo tree. -/
def envC5 : AnalyzerEnv := mkAnalyzerEnv (fun _ => .ok demoBugTree) none none

/-- The AST of `if a or b:\n    pass` (one branching construct, one
two-operand boolean expression). -/
def demoC3Tree : PyNode :=
  .module [.ifStmt (.boolOp [.nameExpr "a", .nameExpr "b"]) [.passStmt] []]

/-- The AST of the branch-free expression statement `x`. -/
def demoPlainTree : PyNode := .module [.exprStmt (.nameExpr "x")]

/-- Environment whose parse oracle reports a syntax error at line 3. -/
def envC4 : AnalyzerEnv :=
  mkAnalyzerEnv (fun _ => .error ⟨3, "invalid syntax"⟩) none none

/-- Environment whose pylint sub-run reports one record of type
`convention` (a severity outside the error/warning/info enumeration). -/
def envC9 : AnalyzerEnv :=
  mkAnalyzerEnv (fun _ => .ok (.module [.assign [.nameExpr "x"] (.constant .other)]))
    (some [⟨"convention", "C0103", "Invalid name"⟩]) none

/-- Analyzer environment in which the entry point's catch-all fires. -/
def envC1a : AnalyzerEnv := mkAnalyzerEnv (fun _ => .ok (.module [])) none (some "boom")

/-- Executor environment in which the entry point's catch-all fires. -/
def envC1e : ExecEnv :=
  ⟨some "boom",
   ⟨"t.py", 0, .finished .timedOut⟩,
   ⟨"t.js", 0, .finished .timedOut⟩,
   ⟨none, "d", 0, .toolMissing, .badStatus⟩,
   ⟨"t.cpp", "t.exe", 0, .toolMissing⟩⟩

/-- Executor environment in which writing the Python source text into the
freshly created temp file raises (the lone-surrogate `UnicodeEncodeError`
path), before `temp_file = f.name` was assigned. -/
def envC8leak : ExecEnv :=
  ⟨none,
   ⟨"t.py", 0, .writeRaised "UnicodeEncodeError: surrogates not allowed"⟩,
   ⟨"t.js", 0, .finished .timedOut⟩,
   ⟨none, "d", 0, .toolMissing, .badStatus⟩,
   ⟨"t.cpp", "t.exe", 0, .toolMissing⟩⟩

/-- Executor environment whose Python path completes normally (and whose
other paths avoid the write-failure branch). -/
def envC8ok : ExecEnv :=
  ⟨none,
   ⟨"t.py", 0, .finished (.completed 0 "hi" "")⟩,
   ⟨"t.js", 0, .finished .timedOut⟩,
   ⟨some "Main", "d", 0, .compileFailed "err", .badStatus⟩,
   ⟨"t.cpp", "t.exe", 0, .toolMissing⟩⟩

/-! ## Helper lemmas -/

theorem length_dropWhile_le' (p : α → Bool) (l : List α) :
    (l.dropWhile p).length ≤ l.length := by
  induction l with
  | nil => simp
  | cons a as ih =>
      rw [List.dropWhile_cons]
      split
      · exact Nat.le_succ_of_le ih
      · exact Nat.le_refl _

theorem strip_length_le (s : String) : Py.strLen (Py.strip s) ≤ Py.strLen s := by
  unfold Py.strip Py.strLen
  calc (String.mk (((s.data.dropWhile Py.pyIsSpace).reverse.dropWhile Py.pyIsSpace).reverse)).data.length
      = (((s.data.dropWhile Py.pyIsSpace).reverse.dropWhile Py.pyIsSpace).reverse).length := rfl
    _ = (((s.data.dropWhile Py.pyIsSpace).reverse.dropWhile Py.pyIsSpace)).length := by
          rw [List.length_reverse]
    _ ≤ ((s.data.dropWhile Py.pyIsSpace).reverse).length := length_dropWhile_le' _ _
    _ = ((s.data.dropWhile Py.pyIsSpace)).length := by rw [List.length_reverse]
    _ ≤ s.data.length := length_dropWhile_le' _ _

theorem pyTake_eq_empty (s : String) :
    Py.take s maxOutputLength = "" ↔ s = "" := by
  constructor
  · intro h
    have hd : (s.data.take maxOutputLength) = ("" : String).data := congrArg String.data h
    have : s.data = [] := by
      rcases List.take_eq_nil_iff.mp hd with h0 | h1
      · exact absurd h0 (by decide)
      · exact h1
    calc s = String.mk s.data := rfl
      _ = "" := by rw [this]
  · rintro rfl; rfl

theorem strLen_pyTake (s : String) (n : Nat) :
    Py.strLen (Py.take s n) = min n (Py.strLen s) := by
  unfold Py.take Py.strLen
  exact List.length_take ..

theorem isPrefixOf_self_append (a b : List Char) : a.isPrefixOf (a ++ b) = true := by
  induction a with
  | nil => simp [List.isPrefixOf]
  | cons c cs ih => simp [List.isPrefixOf, ih]

theorem containsChars_of_append (pre sub suf : List Char) :
    Py.containsChars sub (pre ++ sub ++ suf) = true := by
  induction pre with
  | nil =>
      cases hs : sub with
      | nil => cases hb : ([] ++ suf : List Char) <;> simp [Py.containsChars, hb]
      | cons c cs =>
          show Py.containsChars (c :: cs) ((c :: cs) ++ suf) = true
          rw [List.cons_append]
          unfold Py.containsChars
          rw [← List.cons_append, isPrefixOf_self_append]
          rfl
  | cons c cs ih =>
      show Py.containsChars sub (c :: (cs ++ sub ++ suf)) = true
      unfold Py.containsChars
      rw [ih, Bool.or_true]

theorem containsSub_middle (a b c : String) :
    Py.containsSub (a ++ b ++ c) b = true := by
  unfold Py.containsSub
  rw [String.data_append, String.data_append]
  exact containsChars_of_append a.data b.data c.data

theorem foldl_add_contrib (l : List PyNode) (c : Int) :
    l.foldl (fun acc n => acc + contrib n) c = c + (l.map contrib).sum := by
  induction l generalizing c with
  | nil => simp
  | cons x xs ih =>
      rw [List.foldl_cons, ih, List.map_cons, List.sum_cons]
      ring

theorem contrib_eq (n : PyNode) (h : boolOpArityOK n = true) :
    contrib n = ((if isBranchB n then 1 else 0 : Nat) : Int) + (boolExtraN n : Int) := by
  cases n
  case boolOp values =>
    have hlen : 1 ≤ values.length := by
      cases values with
      | nil => simp [boolOpArityOK] at h
      | cons v vs => simp
    simp [contrib, isBranchB, boolExtraN]
    omega
  all_goals simp [contrib, isBranchB, boolExtraN]

theorem contrib_decomp (l : List PyNode) (h : ∀ n ∈ l, boolOpArityOK n = true) :
    (l.map contrib).sum
      = ((l.filter isBranchB).length : Int) + ((l.map boolExtraN).sum : Int) := by
  induction l with
  | nil => simp
  | cons x xs ih =>
      have hx := h x (by simp)
      have hxs : ∀ n ∈ xs, boolOpArityOK n = true := fun n hn => h n (by simp [hn])
      rw [List.map_cons, List.sum_cons, ih hxs, contrib_eq x hx, List.filter_cons]
      split <;> simp <;> omega

theorem contrib_eq_zero (n : PyNode) (h1 : isBranchB n = false) (h2 : isBoolOpB n = false) :
    contrib n = 0 := by
  cases n <;> simp_all [contrib, isBranchB, isBoolOpB]

theorem flatMap_eq_nil_of_all_false {α β : Type} (p : α → Bool) (g : α → List β)
    (hg : ∀ a, p a = false → g a = []) (l : List α) (h : l.filter p = []) :
    l.flatMap g = [] := by
  rw [List.flatMap_eq_nil_iff]
  intro x hx
  exact hg x (Bool.eq_false_iff.mpr (List.filter_eq_nil_iff.mp h x hx))

theorem flatMap_eq_of_filter_singleton {α β : Type} (p : α → Bool) (g : α → List β)
    (hg : ∀ a, p a = false → g a = []) :
    ∀ (l : List α) (x : α), l.filter p = [x] → l.flatMap g = g x := by
  intro l
  induction l with
  | nil => intro x h; simp at h
  | cons a as ih =>
      intro x h
      rw [List.filter_cons] at h
      by_cases hpa : p a = true
      · rw [if_pos hpa] at h
        injection h with h1 h2
        subst h1
        have hnil : as.flatMap g = [] := flatMap_eq_nil_of_all_false p g hg as h2
        rw [List.flatMap_cons, hnil, List.append_nil]
      · have hpa' : p a = false := Bool.eq_false_iff.mpr hpa
        rw [if_neg hpa] at h
        rw [List.flatMap_cons, hg a hpa', List.nil_append]
        exact ih x h

/-! ## Claims -/

/-- Claim C2: for every spawned child process that runs to completion, the
returned `success` flag is true exactly when the process exited with status
0 and produced no stderr content; in particular exit status 0 with a
non-empty stderr yields `success = false`.  (Shown for the Python
interpreter path and the C++ run path, the two code sites the claim cites.) -/
theorem claim_C2_success_iff :
    ∀ (tmp exe : String) (el1 el2 : Rat) (rc : Int) (out err : String),
      ((execute_python ⟨tmp, el1, .finished (.completed rc out err)⟩).1.success = true
         ↔ (rc = 0 ∧ err = "")) ∧
      ((execute_cpp ⟨tmp, exe, el2, .ran (.completed rc out err)⟩).1.success = true
         ↔ (rc = 0 ∧ err = "")) ∧
      (rc = 0 → err ≠ "" →
        (execute_python ⟨tmp, el1, .finished (.completed rc out err)⟩).1.success = false) := by
  intro tmp exe el1 el2 rc out err
  refine ⟨?_, ?_, ?_⟩
  · show (rc == 0 && (Py.take err maxOutputLength == "")) = true ↔ _
    simp [Bool.and_eq_true, beq_iff_eq, pyTake_eq_empty]
  · show (rc == 0 && (err == "")) = true ↔ _
    simp [Bool.and_eq_true, beq_iff_eq]
  · intro h1 h2
    show (rc == 0 && (Py.take err maxOutputLength == "")) = false
    have : Py.take err maxOutputLength ≠ "" := fun hc => h2 ((pyTake_eq_empty err).mp hc)
    simp [this]

/-- Claim C2 witness: a process exiting 0 while writing to stderr is not a
success. -/
theorem claim_C2_success_iff_witness :
    (execute_python ⟨"tmp.py", 0, .finished (.completed 0 "ok" "warning: x")⟩).1.success
      = false :=
  (claim_C2_success_iff "tmp.py" "a.exe" 0 0 0 "ok" "warning: x").2.2 rfl (by decide)

/-- Claim C6: for a completed run, the returned output (and error) is the
stdout (stderr) capture truncated to the configured maximum length and then
trimmed of edge whitespace; the truncation step yields exactly the
configured length whenever the capture exceeds it, and the returned output
never exceeds the cap. -/
theorem claim_C6_output_cap :
    ∀ (tmp : String) (el : Rat) (rc : Int) (out err : String),
      ((execute_python ⟨tmp, el, .finished (.completed rc out err)⟩).1.output
          = Py.strip (Py.take out maxOutputLength)) ∧
      ((execute_python ⟨tmp, el, .finished (.completed rc out err)⟩).1.error
          = Py.strip (Py.take err maxOutputLength)) ∧
      (maxOutputLength < Py.strLen out →
          Py.strLen (Py.take out maxOutputLength) = maxOutputLength) ∧
      Py.strLen ((execute_python ⟨tmp, el, .finished (.completed rc out err)⟩).1.output)
          ≤ maxOutputLength := by
  intro tmp el rc out err
  have houtput : (execute_python ⟨tmp, el, .finished (.completed rc out err)⟩).1.output
      = Py.strip (Py.take out maxOutputLength) := by
    show (if Py.take out maxOutputLength = "" then ""
          else Py.strip (Py.take out maxOutputLength)) = _
    split
    · rename_i hemp; rw [hemp]; rfl
    · rfl
  have herror : (execute_python ⟨tmp, el, .finished (.completed rc out err)⟩).1.error
      = Py.strip (Py.take err maxOutputLength) := by
    show (if Py.take err maxOutputLength = "" then ""
          else Py.strip (Py.take err maxOutputLength)) = _
    split
    · rename_i hemp; rw [hemp]; rfl
    · rfl
  refine ⟨houtput, herror, ?_, ?_⟩
  · intro hlong
    rw [strLen_pyTake]
    omega
  · rw [houtput]
    calc Py.strLen (Py.strip (Py.take out maxOutputLength))
        ≤ Py.strLen (Py.take out maxOutputLength) := strip_length_le _
      _ = min maxOutputLength (Py.strLen out) := strLen_pyTake _ _
      _ ≤ maxOutputLength := Nat.min_le_left _ _

/-- Claim C6 witness: a 10001-character stdout is cut at exactly 10000
characters. -/
theorem claim_C6_output_cap_witness :
    Py.strLen (Py.take (String.mk (List.replicate 10001 'a')) maxOutputLength)
      = maxOutputLength :=
  (claim_C6_output_cap "tmp.py" 0 0 (String.mk (List.replicate 10001 'a')) "").2.2.1
    (by show maxOutputLength < (List.replicate 10001 'a').length
        rw [List.length_replicate]
        norm_num [maxOutputLength])

/-- Claim C7: on timeout the executor kills the child, reports failure with
a non-empty error message containing a timeout indication, and an execution
time equal to the configured timeout. -/
theorem claim_C7_timeout :
    ∀ (tmp : String) (el : Rat),
      ((execute_python ⟨tmp, el, .finished .timedOut⟩).1.success = false) ∧
      ((execute_python ⟨tmp, el, .finished .timedOut⟩).1.error ≠ "") ∧
      (Py.containsSub (execute_python ⟨tmp, el, .finished .timedOut⟩).1.error "timeout"
         = true) ∧
      ((execute_python ⟨tmp, el, .finished .timedOut⟩).1.execution_time
         = (executorTimeout : Rat)) ∧
      (Act.killProc ∈ (execute_python ⟨tmp, el, .finished .timedOut⟩).2) := by
  intro tmp el
  refine ⟨rfl, ?_, ?_, rfl, ?_⟩
  · show timeoutMsg ≠ ""
    decide
  · show Py.containsSub timeoutMsg "timeout" = true
    decide
  · show Act.killProc ∈ [Act.createFile none tmp, Act.killProc, Act.unlink none tmp]
    simp

/-- Claim C10: the `typescript` language tag dispatches to the very same
Node.js execution path as `javascript`, so the two calls return identical
results in every environment. -/
theorem claim_C10_ts_eq_js :
    ∀ (env : ExecEnv) (code : String),
      execute env code "typescript" = execute env code "javascript" := by
  intro env code
  unfold execute
  cases env.exc <;> rfl

theorem cleanup_python (e : PyRunEnv) (hw : e.outcome.isWriteRaised = false) :
    runActs (execute_python e).2 = ⟨[], []⟩ := by
  rcases e with ⟨tmp, el, o⟩
  cases o with
  | raisedBeforeTmp m => rfl
  | writeRaised m => simp [PyOutcome.isWriteRaised] at hw
  | raisedAfterTmp m => simp [execute_python, runActs, applyAct, List.filter]
  | finished p =>
      cases p with
      | completed rc out err => simp [execute_python, runActs, applyAct, List.filter]
      | timedOut => simp [execute_python, runActs, applyAct, List.filter]

theorem cleanup_javascript (e : JsRunEnv) (hw : e.outcome.isWriteRaised = false) :
    runActs (execute_javascript e).2 = ⟨[], []⟩ := by
  rcases e with ⟨tmp, el, o⟩
  cases o with
  | raisedBeforeTmp m => rfl
  | writeRaised m => simp [JsOutcome.isWriteRaised] at hw
  | nodeMissing => simp [execute_javascript, runActs, applyAct, List.filter]
  | raisedAfterTmp m => simp [execute_javascript, runActs, applyAct, List.filter]
  | finished p =>
      cases p with
      | completed rc out err => simp [execute_javascript, runActs, applyAct, List.filter]
      | timedOut => simp [execute_javascript, runActs, applyAct, List.filter]

theorem cleanup_java (e : JavaRunEnv) : runActs (execute_java e).2 = ⟨[], []⟩ := by
  rcases e with ⟨cm, d, el, o, onl⟩
  cases cm with
  | none => rfl
  | some cls =>
      cases o with
      | toolMissing => simp [execute_java, runActs, applyAct, List.filter]
      | compileFailed cstderr => simp [execute_java, runActs, applyAct, List.filter]
      | ran p =>
          cases p with
          | completed rc out err => simp [execute_java, runActs, applyAct, List.filter]
          | timedOut => simp [execute_java, runActs, applyAct, List.filter]
      | raisedInside m => simp [execute_java, runActs, applyAct, List.filter]

theorem cleanup_cpp (e : CppRunEnv) (hw : e.outcome.isWriteRaised = false) :
    runActs (execute_cpp e).2 = ⟨[], []⟩ := by
  rcases e with ⟨src, exe, el, o⟩
  cases o with
  | raisedBeforeTmp m => rfl
  | writeRaised m => simp [CppOutcome.isWriteRaised] at hw
  | toolMissing => simp [execute_cpp, runActs, applyAct, List.filter]
  | compileFailed cstderr => simp [execute_cpp, runActs, applyAct, List.filter]
  | ran p =>
      cases p with
      | completed rc out err =>
          by_cases hse : exe = src
          · subst hse; simp [execute_cpp, runActs, applyAct, List.filter]
          · have hb : (((none : Option String), exe) == ((none : Option String), src))
                = false := by
              rw [beq_eq_false_iff_ne]
              intro hcontra
              exact hse (congrArg Prod.snd hcontra)
            simp [execute_cpp, runActs, applyAct, List.filter, hb]
      | timedOut =>
          by_cases hse : exe = src
          · subst hse; simp [execute_cpp, runActs, applyAct, List.filter]
          · have hb : (((none : Option String), exe) == ((none : Option String), src))
                = false := by
              rw [beq_eq_false_iff_ne]
              intro hcontra
              exact hse (congrArg Prod.snd hcontra)
            simp [execute_cpp, runActs, applyAct, List.filter, hb]
  | raisedAfterSrc m => simp [execute_cpp, runActs, applyAct, List.filter]

/-- Claim C8 counterexample: when `f.write(code)` raises after
`NamedTemporaryFile(delete=False)` already created the file but before
`temp_file = f.name` was assigned (a lone-surrogate `UnicodeEncodeError`
under strict UTF-8, or a disk-full `OSError`), the handler's
`if temp_file and os.path.exists(temp_file)` guard skips the unlink and the
temp file remains on disk after the call — cleanup is not a scoped-resource
guarantee on every exit path. -/
theorem claim_C8_cleanup_counterexample :
    (runActs (execute envC8leak "x" "python").2).files = [(none, "t.py")] ∧
    ¬(runActs (execute envC8leak "x" "python").2 = ⟨[], []⟩) := by
  refine ⟨rfl, ?_⟩
  intro h
  have := congrArg FsState.files h
  rw [show (runActs (execute envC8leak "x" "python").2).files
        = [(none, "t.py")] from rfl] at this
  exact absurd this (by decide)

/-- Claim C8 (amended): after every `execute` call whose language path did
not fail while writing the source text into the fresh temp file — i.e. on
every exit path of every language (success, compile failure, runtime error,
timeout, missing toolchain, or internal exception) other than that
write-failure path — replaying the call's resource trace against an empty
filesystem leaves no temporary file and no temporary directory behind; on
the write-failure path the created temp file leaks, so deletion there is
best-effort, not a scoped-resource guarantee. -/
theorem claim_C8_cleanup :
    ∀ (env : ExecEnv) (code lang : String),
      env.py.outcome.isWriteRaised = false →
      env.js.outcome.isWriteRaised = false →
      env.cpp.outcome.isWriteRaised = false →
      runActs (execute env code lang).2 = ⟨[], []⟩ := by
  intro env code lang hpy hjs hcpp
  unfold execute
  cases env.exc with
  | some m => rfl
  | none =>
      split_ifs
      · exact cleanup_python env.py hpy
      · exact cleanup_javascript env.js hjs
      · exact cleanup_java env.java
      · exact cleanup_cpp env.cpp hcpp
      · rfl

/-- Claim C8 (amended) witness: a normally completing Python execution
leaves the filesystem clean. -/
theorem claim_C8_cleanup_witness :
    runActs (execute envC8ok "print(1)" "python").2 = ⟨[], []⟩ :=
  claim_C8_cleanup envC8ok "print(1)" "python" rfl rfl rfl

/-- Claim C1: for every input string, language and environment (including
environments in which an internal exception fires), `analyze` and `execute`
return structurally complete results — the four required keys of each are
present — and an internal exception reaching either entry point is converted
into its error-shaped result rather than propagating. -/
theorem claim_C1_total_complete :
    ∀ (aenv : AnalyzerEnv) (eenv : ExecEnv) (code lang : String),
      hasKeys (analyze aenv code lang).toDict requiredBundleKeys ∧
      hasKeys ((execute eenv code lang).1.toDict) requiredExecKeys ∧
      (∀ e, aenv.exc = some e →
        analyze aenv code lang = create_error_result e code lang) ∧
      (∀ m, eenv.exc = some m →
        (execute eenv code lang).1 = ⟨"", m, 0, false⟩) := by
  intro aenv eenv code lang
  refine ⟨?_, ?_, ?_, ?_⟩
  · intro k hk
    simp only [requiredBundleKeys, List.mem_cons, List.not_mem_nil, or_false] at hk
    rcases hk with rfl | rfl | rfl | rfl <;> rfl
  · intro k hk
    simp only [requiredExecKeys, List.mem_cons, List.not_mem_nil, or_false] at hk
    rcases hk with rfl | rfl | rfl | rfl <;> rfl
  · intro e he
    unfold analyze
    rw [he]
  · intro m hm
    unfold execute
    rw [hm]

/-- Claim C1 witness: with an internal exception pending, both entry points
return their error-shaped results, and the issues key is present. -/
theorem claim_C1_total_complete_witness :
    analyze envC1a "x" "python" = create_error_result "boom" "x" "python" ∧
    (execute envC1e "x" "ruby").1 = ⟨"", "boom", 0, false⟩ ∧
    (((analyze envC1a "x" "python").toDict.lookup "issues").isSome = true) ∧
    ((((execute envC1e "x" "ruby").1.toDict).lookup "output").isSome = true) :=
  ⟨(claim_C1_total_complete envC1a envC1e "x" "python").2.2.1 "boom" rfl,
   (claim_C1_total_complete envC1a envC1e "x" "ruby").2.2.2 "boom" rfl,
   (claim_C1_total_complete envC1a envC1e "x" "python").1 "issues" (by simp [requiredBundleKeys]),
   (claim_C1_total_complete envC1a envC1e "x" "ruby").2.1 "output" (by simp [requiredExecKeys])⟩

theorem cyclomatic_decomposition (t : PyNode)
    (h : ∀ n ∈ walkN t, boolOpArityOK n = true) :
    cyclomaticComplexity t = 1 + (branchCount t : Int) + (boolExtraSum t : Int) := by
  unfold cyclomaticComplexity branchCount boolExtraSum
  rw [foldl_add_contrib, contrib_decomp (walkN t) h]
  ring

/-- Claim C3: the reported cyclomatic complexity of a parsed Python tree is
1 plus one per branching construct (if / for / while / except handler) plus,
per boolean-operator expression, its number of operands beyond the first;
consequently a tree with no branching construct and no boolean operator
reports cyclomatic complexity 1. -/
theorem claim_C3_cyclomatic :
    ∀ t : PyNode,
      ((∀ n ∈ walkN t, boolOpArityOK n = true) →
        (analyze_python_complexity t).lookup "cyclomatic_complexity"
          = some (.vInt (1 + (branchCount t : Int) + (boolExtraSum t : Int)))) ∧
      ((walkN t).filter isBranchB = [] → (walkN t).filter isBoolOpB = [] →
        (analyze_python_complexity t).lookup "cyclomatic_complexity"
          = some (.vInt 1)) := by
  intro t
  have hlook : (analyze_python_complexity t).lookup "cyclomatic_complexity"
      = some (.vInt (cyclomaticComplexity t)) := rfl
  constructor
  · intro h
    rw [hlook, cyclomatic_decomposition t h]
  · intro hb hbo
    rw [hlook]
    have hz : ∀ n ∈ walkN t, contrib n = 0 := by
      intro n hn
      exact contrib_eq_zero n
        (Bool.eq_false_iff.mpr (List.filter_eq_nil_iff.mp hb n hn))
        (Bool.eq_false_iff.mpr (List.filter_eq_nil_iff.mp hbo n hn))
    have hsum : ((walkN t).map contrib).sum = 0 := by
      apply List.sum_eq_zero
      intro x hx
      rcases List.mem_map.mp hx with ⟨n, hn, rfl⟩
      exact hz n hn
    unfold cyclomaticComplexity
    rw [foldl_add_contrib, hsum]
    norm_num

/-- Claim C3 witness: `if a or b: pass` reports complexity 3 (one branch,
one extra boolean operand); a branch-free expression statement reports the
baseline 1. -/
theorem claim_C3_cyclomatic_witness :
    (analyze_python_complexity demoC3Tree).lookup "cyclomatic_complexity"
      = some (.vInt (1 + (branchCount demoC3Tree : Int) + (boolExtraSum demoC3Tree : Int))) ∧
    (analyze_python_complexity demoPlainTree).lookup "cyclomatic_complexity"
      = some (.vInt 1) :=
  ⟨(claim_C3_cyclomatic demoC3Tree).1 (by decide),
   (claim_C3_cyclomatic demoPlainTree).2 rfl rfl⟩

/-- Claim C4: when the parse oracle reports a syntax error, `analyze` on
Python input returns exactly one issue — of severity error, carrying the
parser-reported line number — and the metrics, quality-indicator and
complexity dictionaries stay at their empty defaults. -/
theorem claim_C4_syntax_error :
    ∀ (env : AnalyzerEnv) (code : String) (e : SynErr),
      env.exc = none → env.parse code = .error e →
      analyze env code "python"
        = ⟨[syntax_error_issue e], [], [], []⟩ ∧
      (syntax_error_issue e).severity = "error" ∧
      (syntax_error_issue e).line_number = some e.lineno := by
  intro env code e h1 h2
  refine ⟨?_, rfl, rfl⟩
  unfold analyze
  rw [h1]
  unfold analyze_python
  rw [h2]
  simp

/-- Claim C4 witness: a parse error at line 3 yields the single
error-severity issue and empty metric dictionaries. -/
theorem claim_C4_syntax_error_witness :
    analyze envC4 "def f(:" "python"
      = ⟨[syntax_error_issue ⟨3, "invalid syntax"⟩], [], [], []⟩ ∧
    (syntax_error_issue (⟨3, "invalid syntax"⟩ : SynErr)).severity = "error" ∧
    (syntax_error_issue (⟨3, "invalid syntax"⟩ : SynErr)).line_number = some 3 :=
  claim_C4_syntax_error envC4 "def f(:" ⟨3, "invalid syntax"⟩ rfl rfl

theorem mutableDefaultsOf_eq_nil (n : PyNode) (h : isFunctionDefB n = false) :
    mutableDefaultsOf n = [] := by
  cases n
  case functionDef name args defaults body retAnn lineno => simp [isFunctionDefB] at h
  all_goals rfl

theorem bareExceptsOf_eq_nil (n : PyNode) (h : isBareExceptB n = false) :
    bareExceptsOf n = [] := by
  cases n
  case exceptHandler etype body lineno =>
    cases etype
    case none => simp [isBareExceptB] at h
    case some => rfl
  all_goals rfl

/-- Claim C5: for a parsed Python input whose only issue-triggering pattern
is a single function definition carrying a single list-literal default
value, `analyze` produces exactly one issue; it has severity warning and its
description names that function. -/
theorem claim_C5_mutable_default :
    ∀ (env : AnalyzerEnv) (code : String) (t : PyNode) (name : String)
      (args : List PyArg) (defaults : List PyNode) (body : List PyNode)
      (retAnn : Option PyNode) (lineno : Int) (elts : List PyNode),
      env.exc = none →
      env.parse code = .ok t →
      run_pylint env.pylint = [] →
      check_python_syntax_issues t = [] →
      check_python_style_issues code = [] →
      (walkN t).filter isFunctionDefB
        = [.functionDef name args defaults body retAnn lineno] →
      defaults.filter isMutableLitB = [.listLit elts] →
      (walkN t).filter isBareExceptB = [] →
      (analyze env code "python").issues = [mutable_default_issue name lineno] ∧
      (mutable_default_issue name lineno).severity = "warning" ∧
      Py.containsSub (mutable_default_issue name lineno).description name = true := by
  intro env code t name args defaults body retAnn lineno elts
  intro hexc hparse hpylint hsyn hstyle hfun hdef hbare
  refine ⟨?_, rfl, ?_⟩
  · have hissues : (analyze env code "python").issues
        = check_python_syntax_issues t ++ check_python_style_issues code ++
            check_python_potential_bugs t ++ run_pylint env.pylint := by
      unfold analyze
      rw [hexc]
      unfold analyze_python
      rw [hparse]
      simp
    rw [hissues, hsyn, hstyle, hpylint]
    unfold check_python_potential_bugs
    have hbe : (walkN t).flatMap bareExceptsOf = [] :=
      flatMap_eq_nil_of_all_false isBareExceptB bareExceptsOf
        (fun a ha => bareExceptsOf_eq_nil a ha) (walkN t) hbare
    have hmd : (walkN t).flatMap mutableDefaultsOf
        = mutableDefaultsOf (.functionDef name args defaults body retAnn lineno) :=
      flatMap_eq_of_filter_singleton isFunctionDefB mutableDefaultsOf
        (fun a ha => mutableDefaultsOf_eq_nil a ha) (walkN t) _ hfun
    rw [hbe, hmd]
    simp only [mutableDefaultsOf]
    rw [hdef]
    simp
  · show Py.containsSub
      ("Function '" ++ name ++ "' has mutable default argument") name = true
    exact containsSub_middle "Function '" name "' has mutable default argument"

/-- Claim C5 witness: `def f(a=[]): pass` yields exactly the one
warning-severity issue naming `f`. -/
theorem claim_C5_mutable_default_witness :
    (analyze envC5 demoBugCode "python").issues = [mutable_default_issue "f" 1] ∧
    (mutable_default_issue "f" 1).severity = "warning" ∧
    Py.containsSub (mutable_default_issue "f" 1).description "f" = true :=
  claim_C5_mutable_default envC5 demoBugCode demoBugTree "f" [⟨"a", false⟩]
    [.listLit []] [.passStmt] none 1 []
    rfl rfl rfl rfl rfl rfl rfl rfl


/-- Claim C9 counterexample: a pylint record whose type is `convention` — a
sub-check severity outside the error/warning/info enumeration — is
normalized to `warning`, not to `info` as the claim states, both at the
severity mapping and in the merged result of `analyze`. -/
theorem claim_C9_counterexample :
    pylintSeverity "convention" = "warning" ∧
    ((analyze envC9 "x = 1" "python").issues.map Issue.severity = ["warning"]) ∧
    ¬((analyze envC9 "x = 1" "python").issues.map Issue.severity = ["info"]) := by
  refine ⟨rfl, rfl, ?_⟩
  intro h
  have hw : (analyze envC9 "x = 1" "python").issues.map Issue.severity
      = ["warning"] := rfl
  rw [hw] at h
  exact absurd h (by decide)

theorem sev_run_pylint (items : Option (List PylintItem)) (i : Issue)
    (h : i ∈ run_pylint items) : i.severity ∈ okSeverities := by
  cases items with
  | none => simp [run_pylint] at h
  | some l =>
      simp only [run_pylint, List.mem_map] at h
      rcases h with ⟨it, _, rfl⟩
      show pylintSeverity it.ptype ∈ okSeverities
      unfold pylintSeverity
      split <;> simp [okSeverities]

theorem sev_py_syntax (t : PyNode) (i : Issue)
    (h : i ∈ check_python_syntax_issues t) : i.severity ∈ okSeverities := by
  simp only [check_python_syntax_issues] at h
  split at h
  · simp at h
  · rw [List.mem_singleton] at h
    subst h
    simp [okSeverities]

theorem mutableDefaultsOf_sev (n : PyNode) (i : Issue)
    (h : i ∈ mutableDefaultsOf n) : i.severity = "warning" := by
  unfold mutableDefaultsOf at h
  split at h
  · rw [List.mem_map] at h
    rcases h with ⟨x, _, rfl⟩
    rfl
  · exact absurd h (List.not_mem_nil i)

theorem bareExceptsOf_sev (n : PyNode) (i : Issue)
    (h : i ∈ bareExceptsOf n) : i.severity = "warning" := by
  unfold bareExceptsOf at h
  split at h
  · rw [List.mem_singleton] at h
    subst h
    rfl
  · exact absurd h (List.not_mem_nil i)

theorem sev_py_bugs (t : PyNode) (i : Issue)
    (h : i ∈ check_python_potential_bugs t) : i.severity ∈ okSeverities := by
  unfold check_python_potential_bugs at h
  rw [List.mem_append] at h
  rcases h with h | h <;> rw [List.mem_flatMap] at h <;> rcases h with ⟨n, _, hn⟩
  · rw [mutableDefaultsOf_sev n i hn]
    simp [okSeverities]
  · rw [bareExceptsOf_sev n i hn]
    simp [okSeverities]

theorem sev_py_style (code : String) (i : Issue)
    (h : i ∈ check_python_style_issues code) : i.severity ∈ okSeverities := by
  simp only [check_python_style_issues] at h
  rw [List.mem_append] at h
  rcases h with h | h
  · split at h
    · simp at h
    · rw [List.mem_singleton] at h
      subst h
      simp [okSeverities]
  · rw [List.mem_flatMap] at h
    rcases h with ⟨p, _, hp⟩
    split at hp
    · split at hp
      · simp at hp
      · split at hp
        · split at hp
          · rw [List.mem_singleton] at hp
            subst hp
            simp [missingBlankIssue, okSeverities]
          · simp at hp
        · simp at hp
    · simp at hp

theorem sev_js_syntax (code : String) (i : Issue)
    (h : i ∈ check_js_syntax_issues code) : i.severity ∈ okSeverities := by
  unfold check_js_syntax_issues at h
  rw [List.mem_flatMap] at h
  rcases h with ⟨p, _, hp⟩
  simp only [jsSemicolonIssueAt] at hp
  split at hp
  · rw [List.mem_singleton] at hp
    subst hp
    simp [okSeverities]
  · simp at hp

theorem sev_js_style (f : JsFacts) (code : String) (i : Issue)
    (h : i ∈ check_js_style_issues f code) : i.severity ∈ okSeverities := by
  unfold check_js_style_issues at h
  simp only [List.mem_append] at h
  rcases h with (h | h) | h <;> split at h <;> simp_all [okSeverities]

theorem sev_js_security (code : String) (i : Issue)
    (h : i ∈ check_js_security_issues code) : i.severity ∈ okSeverities := by
  unfold check_js_security_issues at h
  simp only [List.mem_append] at h
  rcases h with h | h <;> split at h <;> simp_all [okSeverities]

theorem sev_js_perf (f : JsFacts) (i : Issue)
    (h : i ∈ check_js_performance_issues f) : i.severity ∈ okSeverities := by
  unfold check_js_performance_issues at h
  simp only [List.mem_append] at h
  rcases h with h | h <;> split at h <;> simp_all [okSeverities]

theorem sev_java (f : JavaFacts) (code : String) (i : Issue)
    (h : i ∈ check_java_patterns f code) : i.severity ∈ okSeverities := by
  unfold check_java_patterns at h
  simp only [List.mem_append] at h
  rcases h with h | h <;> split at h <;> simp_all [okSeverities]

theorem sev_cpp (f : CppFacts) (code : String) (i : Issue)
    (h : i ∈ check_cpp_patterns f code) : i.severity ∈ okSeverities := by
  unfold check_cpp_patterns at h
  simp only [List.mem_append] at h
  rcases h with h | h <;> split at h <;> simp_all [okSeverities]

/-- Claim C9 (amended): every issue `analyze` returns — for every input,
language and environment — has severity in the error/warning/info
enumeration; severities from the pylint sub-check are normalized by mapping
type `error` to `error` and every other type to `warning` (not to `info`). -/
theorem claim_C9_severity_enum :
    ∀ (env : AnalyzerEnv) (code lang : String) (i : Issue),
      i ∈ (analyze env code lang).issues → i.severity ∈ okSeverities := by
  intro env code lang i h
  unfold analyze at h
  cases henv : env.exc with
  | some e =>
      rw [henv] at h
      simp only [create_error_result, List.mem_singleton] at h
      subst h
      simp [okSeverities]
  | none =>
      rw [henv] at h
      split_ifs at h
      · unfold analyze_python at h
        cases hp : env.parse code with
        | error e =>
            rw [hp] at h
            simp only [List.mem_singleton] at h
            subst h
            simp [syntax_error_issue, okSeverities]
        | ok t =>
            rw [hp] at h
            simp only [List.mem_append] at h
            rcases h with ((h | h) | h) | h
            · exact sev_py_syntax t i h
            · exact sev_py_style code i h
            · exact sev_py_bugs t i h
            · exact sev_run_pylint env.pylint i h
      · unfold analyze_javascript at h
        simp only [List.mem_append] at h
        rcases h with ((h | h) | h) | h
        · exact sev_js_syntax code i h
        · exact sev_js_style env.js code i h
        · exact sev_js_security code i h
        · exact sev_js_perf env.js i h
      · exact sev_java env.java code i h
      · exact sev_cpp env.cpp code i h
      · simp only [analyze_generic, List.mem_singleton] at h
        subst h
        simp [okSeverities]

/-- Claim C9 (amended) witness: the generic-pass informational issue lies
inside the enumeration. -/
theorem claim_C9_severity_enum_witness :
    (⟨"Limited Analysis for ruby",
      "Full static analysis not available for ruby",
      "info",
      "Consider using language-specific tools for detailed analysis",
      none⟩ : Issue).severity ∈ okSeverities :=
  claim_C9_severity_enum envC9 "x = 1" "ruby" _ (by decide)
